import Mathlib

/-
Verification of the tda streaming engine (tda/__init__.py, tda/streaming.py)
against its natural-language specification. JSON wire values are embedded as
the inductive JVal; Python floats are modelled as exact rationals, which is
faithful on the decimal numerals the wire data in scope carries; fallible
Python code is embedded as Except PyErr.
-/

/-- Python exceptions that the modelled code paths can raise. -/
inductive PyErr where
  | keyError
  | indexError
  | typeError
  | valueError
  | attributeError
  | connectionClosed
  | callbackError
  deriving DecidableEq, Repr

/-- An exact decimal number mant / 10 ^ exp, the model of the Python floats
the wire data in scope carries (all are short decimal numerals, on which
this representation is exact). Kept canonical by stripping factors of ten,
so equal numbers have equal representations. -/
structure DecFloat where
  mant : Int
  exp : Nat
  deriving DecidableEq, Repr

/-- Strips common factors of ten; fuelled to stay structurally recursive. -/
def normDecFuel : Nat → Int → Nat → DecFloat
  | 0, m, _ => ⟨m, 0⟩
  | f + 1, m, e =>
    if e = 0 then ⟨m, 0⟩
    else if m % 10 == 0 then normDecFuel f (m.tdiv 10) (e - 1)
    else ⟨m, e⟩

/-- Canonical decimal mant / 10 ^ exp. -/
def normDec (m : Int) (e : Nat) : DecFloat :=
  normDecFuel (e + 1) m e

/-- A parsed JSON wire value (output of json.loads). Objects keep key order. -/
inductive JVal where
  | jnull
  | jbool (b : Bool)
  | jint (n : Int)
  | jfloat (d : DecFloat)
  | jstr (s : String)
  | jarr (xs : List JVal)
  | jobj (kvs : List (String × JVal))

/-- Dict lookup used for the Python `in` test and guarded reads; the wire
frames in scope are JSON objects, so non-objects fall outside the fragment
and yield no key. -/
def jGet (v : JVal) (k : String) : Option JVal :=
  match v with
  | .jobj kvs => (kvs.find? (fun p => p.1 == k)).map (fun p => p.2)
  | _ => none

/-- Python `key in frame` on a dict. -/
def hasKeyB (v : JVal) (k : String) : Bool :=
  (jGet v k).isSome

/-- Python subscription frame[k] on a dict: KeyError when absent, TypeError
when the value is not a dict (list and str subscription by a string key
raises TypeError in Python). -/
def pyGetItem (v : JVal) (k : String) : Except PyErr JVal :=
  match v with
  | .jobj kvs =>
    match (kvs.find? (fun p => p.1 == k)).map (fun p => p.2) with
    | some r => .ok r
    | none => .error .keyError
  | _ => .error .typeError

/-- Python frame[i] on a list: IndexError past the end; indexing a dict by an
int raises KeyError (the wire dicts in scope have string keys only). -/
def jIndex (v : JVal) (i : Nat) : Except PyErr JVal :=
  match v with
  | .jarr xs =>
    match xs.get? i with
    | some r => .ok r
    | none => .error .indexError
  | .jobj _ => .error .keyError
  | _ => .error .typeError

/-- Numeric value of a digit list, most significant first. -/
def digitsVal (cs : List Char) : Nat :=
  cs.foldl (fun a c => 10 * a + (c.toNat - '0'.toNat)) 0

/-- ASCII blank recognized by str.strip() on the wire strings in scope. -/
def isSpaceChar (c : Char) : Bool :=
  c == ' ' || c == '\t' || c == '\n' || c == '\r'

/-- Python str.strip() on ASCII wire strings. -/
def strStrip (s : String) : String :=
  ⟨((s.data.dropWhile isSpaceChar).reverse.dropWhile isSpaceChar).reverse⟩

/-- ASCII lowering of one character (the wire names in scope are ASCII). -/
def asciiLower (c : Char) : Char :=
  if 'A' ≤ c && c ≤ 'Z' then Char.ofNat (c.toNat + 32) else c

/-- ASCII raising of one character. -/
def asciiUpper (c : Char) : Char :=
  if 'a' ≤ c && c ≤ 'z' then Char.ofNat (c.toNat - 32) else c

/-- Python str.lower() on ASCII wire strings. -/
def strLower (s : String) : String :=
  ⟨s.data.map asciiLower⟩

/-- Python str.upper() on ASCII wire strings. -/
def strUpper (s : String) : String :=
  ⟨s.data.map asciiUpper⟩

/-- Modelled fragment of Python float(str): leading/trailing whitespace
stripped, optional sign, decimal digits with at most one point. Exponents,
inf and nan lie outside the fragment the repository's wire data exercises. -/
def parseDecimal (s : String) : Option DecFloat :=
  let cs := (strStrip s).data
  let (sgn, body) : Int × List Char :=
    match cs with
    | '-' :: r => (-1, r)
    | '+' :: r => (1, r)
    | r => (1, r)
  let intPart := body.takeWhile Char.isDigit
  let rest := body.drop intPart.length
  match rest with
  | [] =>
    if intPart.isEmpty then none
    else some (normDec (sgn * (digitsVal intPart : Int)) 0)
  | '.' :: frac =>
    if frac.all Char.isDigit && !(intPart.isEmpty && frac.isEmpty) then
      some (normDec (sgn * (digitsVal (intPart ++ frac) : Int)) frac.length)
    else none
  | _ => none

/-- Modelled fragment of Python int(str): stripped optional sign followed by
decimal digits only (Python int("10.0") raises ValueError). -/
def parseIntStr (s : String) : Option Int :=
  let cs := (strStrip s).data
  let (sgn, body) : Int × List Char :=
    match cs with
    | '-' :: r => (-1, r)
    | '+' :: r => (1, r)
    | r => (1, r)
  if body.isEmpty then none
  else if body.all Char.isDigit then some (sgn * (digitsVal body : Int))
  else none

/-- Python str() on the wire values in scope; only the string case is
exercised by the modelled data (message-type fields arrive as JSON strings). -/
def pyStr (v : JVal) : String :=
  match v with
  | .jstr s => s
  | .jint n => toString n
  | .jbool b => if b then "True" else "False"
  | .jnull => "None"
  | .jfloat _ => "[float]"
  | .jarr _ => "[list]"
  | .jobj _ => "[dict]"

/-- Typed coercion attached to a field (the second component of the enum
member tuples in tda/__init__.py). -/
inductive TCast where
  | tstr
  | tint
  | tfloat
  deriving DecidableEq, Repr

/-- Applies a field's value-kind conversion the way the Python builtins do:
str() is total, int()/float() on a string parse or raise ValueError, and a
non-numeric operand raises TypeError. Results are re-embedded as wire
values. -/
def tcApply : TCast → JVal → Except PyErr JVal
  | .tstr, v => .ok (.jstr (pyStr v))
  | .tint, .jint n => .ok (.jint n)
  | .tint, .jbool b => .ok (.jint (if b then 1 else 0))
  | .tint, .jfloat d => .ok (.jint (d.mant.tdiv ((10 : Int) ^ d.exp)))
  | .tint, .jstr s =>
    match parseIntStr s with
    | some n => .ok (.jint n)
    | none => .error .valueError
  | .tint, _ => .error .typeError
  | .tfloat, .jfloat d => .ok (.jfloat d)
  | .tfloat, .jint n => .ok (.jfloat ⟨n, 0⟩)
  | .tfloat, .jbool b => .ok (.jfloat ⟨if b then 1 else 0, 0⟩)
  | .tfloat, .jstr s =>
    match parseDecimal s with
    | some d => .ok (.jfloat d)
    | none => .error .valueError
  | .tfloat, _ => .error .typeError

/-- tda.ChartBarField (tda/__init__.py lines 15-35). -/
inductive ChartBarField where
  | SYMBOL
  | TIMESTAMP
  | OPEN_PRICE
  | HIGH_PRICE
  | LOW_PRICE
  | CLOSE_PRICE
  | VOLUME
  | UNSUPPORTED
  deriving DecidableEq, Repr

/-- tda.ChartBarField member api_key strings, in definition order. -/
def chartBarMembers : List (ChartBarField × String) :=
  [(.SYMBOL, "symbol"), (.TIMESTAMP, "datetime"), (.OPEN_PRICE, "open"),
   (.HIGH_PRICE, "high"), (.LOW_PRICE, "low"), (.CLOSE_PRICE, "close"),
   (.VOLUME, "volume"), (.UNSUPPORTED, "")]

/-- tda.ChartBarField member typecasts. -/
def ChartBarField.typecast : ChartBarField → TCast
  | .SYMBOL => .tstr
  | .TIMESTAMP => .tint
  | .OPEN_PRICE => .tfloat
  | .HIGH_PRICE => .tfloat
  | .LOW_PRICE => .tfloat
  | .CLOSE_PRICE => .tfloat
  | .VOLUME => .tint
  | .UNSUPPORTED => .tstr

/-- tda.InstrumentType (tda/__init__.py lines 37-53). -/
inductive InstrumentType where
  | EQUITY
  | OPTION
  | MUTUAL_FUND
  | CASH_EQUIVALENT
  | FIXED_INCOME
  | CURRENCY
  | INDEX
  | UNSUPPORTED
  deriving DecidableEq, Repr

/-- tda.InstrumentType member values, in definition order. -/
def instrumentTypeMembers : List (InstrumentType × String) :=
  [(.EQUITY, "EQUITY"), (.OPTION, "OPTION"), (.MUTUAL_FUND, "MUTUAL_FUND"),
   (.CASH_EQUIVALENT, "CASH_EQUIVALENT"), (.FIXED_INCOME, "FIXED_INCOME"),
   (.CURRENCY, "CURRENCY"), (.INDEX, "INDEX"), (.UNSUPPORTED, "")]

/-- tda.OptionContractField (tda/__init__.py lines 55-87). -/
inductive OptionContractField where
  | SYMBOL
  | DESCRIPTION
  | OPEX
  | SETTLEMENT_TYPE
  | STRIKE
  | CONTRACT_TYPE
  | BID_PRICE
  | ASK_PRICE
  | LAST_PRICE
  | MARK_PRICE
  | VOLUME
  | VOLATILITY
  | OPEN_INTEREST
  | BID_SIZE
  | ASK_SIZE
  | LAST_SIZE
  | DELTA
  | GAMMA
  | THETA
  | UNSUPPORTED
  deriving DecidableEq, Repr

/-- tda.OptionContractField member api_key strings, in definition order. -/
def optionContractMembers : List (OptionContractField × String) :=
  [(.SYMBOL, "symbol"), (.DESCRIPTION, "description"), (.OPEX, "expirationDate"),
   (.SETTLEMENT_TYPE, "settlementType"), (.STRIKE, "strikePrice"),
   (.CONTRACT_TYPE, "putCall"), (.BID_PRICE, "bid"), (.ASK_PRICE, "ask"),
   (.LAST_PRICE, "last"), (.MARK_PRICE, "mark"), (.VOLUME, "volume"),
   (.VOLATILITY, "volatility"), (.OPEN_INTEREST, "openInterest"),
   (.BID_SIZE, "bidSize"), (.ASK_SIZE, "askSize"), (.LAST_SIZE, "lastSize"),
   (.DELTA, "delta"), (.GAMMA, "gamma"), (.THETA, "theta"), (.UNSUPPORTED, "")]

/-- tda.OptionContractField member typecasts. -/
def OptionContractField.typecast : OptionContractField → TCast
  | .SYMBOL => .tstr
  | .DESCRIPTION => .tstr
  | .OPEX => .tint
  | .SETTLEMENT_TYPE => .tstr
  | .STRIKE => .tfloat
  | .CONTRACT_TYPE => .tstr
  | .BID_PRICE => .tfloat
  | .ASK_PRICE => .tfloat
  | .LAST_PRICE => .tfloat
  | .MARK_PRICE => .tfloat
  | .VOLUME => .tint
  | .VOLATILITY => .tfloat
  | .OPEN_INTEREST => .tint
  | .BID_SIZE => .tint
  | .ASK_SIZE => .tint
  | .LAST_SIZE => .tint
  | .DELTA => .tfloat
  | .GAMMA => .tfloat
  | .THETA => .tfloat
  | .UNSUPPORTED => .tstr

/-- tda.QuoteField (tda/__init__.py lines 89-114). -/
inductive QuoteField where
  | SYMBOL
  | DESCRIPTION
  | BID_PRICE
  | ASK_PRICE
  | LAST_PRICE
  | MARK_PRICE
  | BID_SIZE
  | ASK_SIZE
  | LAST_SIZE
  | VOLATILITY
  | QUOTE_TIMESTAMP
  | LAST_TIMESTAMP
  | UNSUPPORTED
  deriving DecidableEq, Repr

/-- tda.QuoteField member api_key strings, in definition order. -/
def quoteFieldMembers : List (QuoteField × String) :=
  [(.SYMBOL, "symbol"), (.DESCRIPTION, "description"), (.BID_PRICE, "bidPrice"),
   (.ASK_PRICE, "askPrice"), (.LAST_PRICE, "lastPrice"), (.MARK_PRICE, "mark"),
   (.BID_SIZE, "bidSize"), (.ASK_SIZE, "askSize"), (.LAST_SIZE, "lastSize"),
   (.VOLATILITY, "volatility"), (.QUOTE_TIMESTAMP, "quoteTimestamp"),
   (.LAST_TIMESTAMP, "lastTimestamp"), (.UNSUPPORTED, "")]

/-- tda.QuoteField member typecasts. -/
def QuoteField.typecast : QuoteField → TCast
  | .SYMBOL => .tstr
  | .DESCRIPTION => .tstr
  | .BID_PRICE => .tfloat
  | .ASK_PRICE => .tfloat
  | .LAST_PRICE => .tfloat
  | .MARK_PRICE => .tfloat
  | .BID_SIZE => .tint
  | .ASK_SIZE => .tint
  | .LAST_SIZE => .tint
  | .VOLATILITY => .tfloat
  | .QUOTE_TIMESTAMP => .tint
  | .LAST_TIMESTAMP => .tint
  | .UNSUPPORTED => .tstr

/-- tda._enum_case_insensitive_search_by_typecasted_value
(tda/__init__.py lines 121-147): first member whose api_key matches the
stripped, lowercased name, falling back to the UNSUPPORTED member. Every
caller (ChartBarField, OptionContractField, QuoteField) defines
UNSUPPORTED, so this variant is total. -/
def enumCiSearchByTypecastedValue {M : Type} (members : List (M × String))
    (unsupported : M) (name : String) : M :=
  match (members.filter (fun p => strLower p.2 == strLower (strStrip name))).head? with
  | some p => p.1
  | none => unsupported

/-- tda._enum_case_insensitive_search_by_value (tda/__init__.py lines
149-174): the fallback reads cls.UNSUPPORTED, an attribute lookup that
raises AttributeError when the class defines no UNSUPPORTED member
(WSService and WSCommand in tda/streaming.py do not). -/
def enumCiSearchByValue {M : Type} (members : List (M × String))
    (unsupported : Option M) (name : String) : Except PyErr M :=
  match (members.filter (fun p => strLower p.2 == strLower (strStrip name))).head? with
  | some p => .ok p.1
  | none =>
    match unsupported with
    | some u => .ok u
    | none => .error .attributeError

/-- Name resolution ChartBarField(name): the tuple values never equal a bare
string, so Enum lookup always falls through to _missing_, i.e. the
case-insensitive search with the UNSUPPORTED fallback. -/
def ChartBarField_resolve (name : String) : ChartBarField :=
  enumCiSearchByTypecastedValue chartBarMembers .UNSUPPORTED name

/-- Name resolution OptionContractField(name) via _missing_. -/
def OptionContractField_resolve (name : String) : OptionContractField :=
  enumCiSearchByTypecastedValue optionContractMembers .UNSUPPORTED name

/-- Name resolution QuoteField(name) via _missing_. -/
def QuoteField_resolve (name : String) : QuoteField :=
  enumCiSearchByTypecastedValue quoteFieldMembers .UNSUPPORTED name

/-- Name resolution InstrumentType(name): exact value match, else _missing_
delegating to the by-value search; InstrumentType defines UNSUPPORTED. -/
def InstrumentType_resolve (name : String) : Except PyErr InstrumentType :=
  match (instrumentTypeMembers.filter (fun p => p.2 == name)).head? with
  | some p => .ok p.1
  | none => enumCiSearchByValue instrumentTypeMembers (some .UNSUPPORTED) name

/-- tda.streaming.WSService (tda/streaming.py lines 119-133). -/
inductive WSService where
  | ACCT_ACTIVITY
  | ADMIN
  | CHART_EQUITY
  | OPTION
  | QUOTE
  | TIMESALE_EQUITY
  deriving DecidableEq, Repr

/-- tda.streaming.WSService member values, in definition order. -/
def wsServiceMembers : List (WSService × String) :=
  [(.ACCT_ACTIVITY, "ACCT_ACTIVITY"), (.ADMIN, "ADMIN"),
   (.CHART_EQUITY, "CHART_EQUITY"), (.OPTION, "OPTION"), (.QUOTE, "QUOTE"),
   (.TIMESALE_EQUITY, "TIMESALE_EQUITY")]

/-- The value string of a WSService member (service.value in the source). -/
def WSService.val : WSService → String
  | .ACCT_ACTIVITY => "ACCT_ACTIVITY"
  | .ADMIN => "ADMIN"
  | .CHART_EQUITY => "CHART_EQUITY"
  | .OPTION => "OPTION"
  | .QUOTE => "QUOTE"
  | .TIMESALE_EQUITY => "TIMESALE_EQUITY"

/-- Enum lookup WSService(name): exact value match first, then _missing_
delegates to the case-insensitive search; WSService defines no UNSUPPORTED
member, so an unmatched name raises AttributeError inside the fallback. -/
def WSService_resolve (name : String) : Except PyErr WSService :=
  match (wsServiceMembers.filter (fun p => p.2 == name)).head? with
  | some p => .ok p.1
  | none => enumCiSearchByValue wsServiceMembers none name

/-- WSService(v) on a raw wire value: a non-string never equals a string
member value, and _missing_ then calls name.strip() on it, raising
AttributeError for the non-string wire values in scope. -/
def serviceOfJ (v : JVal) : Except PyErr WSService :=
  match v with
  | .jstr s => WSService_resolve s
  | _ => .error .attributeError

/-- tda.streaming.WSCommand member values, in definition order
(tda/streaming.py lines 46-61); like WSService it has _missing_ but no
UNSUPPORTED member. -/
inductive WSCommand where
  | LOGIN
  | LOGOUT
  | QOS
  | SUBS
  | UNSUBS
  deriving DecidableEq, Repr

/-- tda.streaming.WSCommand member values, in definition order. -/
def wsCommandMembers : List (WSCommand × String) :=
  [(.LOGIN, "LOGIN"), (.LOGOUT, "LOGOUT"), (.QOS, "QOS"), (.SUBS, "SUBS"),
   (.UNSUBS, "UNSUBS")]

/-- Enum lookup WSCommand(name), mirroring WSService_resolve. -/
def WSCommand_resolve (name : String) : Except PyErr WSCommand :=
  match (wsCommandMembers.filter (fun p => p.2 == name)).head? with
  | some p => .ok p.1
  | none => enumCiSearchByValue wsCommandMembers none name

/-- tda.streaming.WSChartEquityField numeric indices
(tda/streaming.py lines 32-44). -/
inductive WSChartEquityField where
  | SYMBOL
  | OPEN_PRICE
  | HIGH_PRICE
  | LOW_PRICE
  | CLOSE_PRICE
  | VOLUME
  | SEQUENCE
  | TIMESTAMP
  deriving DecidableEq, Repr

/-- tda.streaming.WSChartEquityField member numeric values. -/
def WSChartEquityField.val : WSChartEquityField → Nat
  | .SYMBOL => 0
  | .OPEN_PRICE => 1
  | .HIGH_PRICE => 2
  | .LOW_PRICE => 3
  | .CLOSE_PRICE => 4
  | .VOLUME => 5
  | .SEQUENCE => 6
  | .TIMESTAMP => 7

/-- Enum lookup WSChartEquityField(i): the class defines no _missing_, so an
index matching no member raises ValueError. -/
def WSChartEquityField_ofIndex (i : Nat) : Except PyErr WSChartEquityField :=
  match ([WSChartEquityField.SYMBOL, .OPEN_PRICE, .HIGH_PRICE, .LOW_PRICE,
          .CLOSE_PRICE, .VOLUME, .SEQUENCE,
          .TIMESTAMP].filter (fun f => f.val == i)).head? with
  | some f => .ok f
  | none => .error .valueError

/-- tda.streaming.WSTimesaleEquityField numeric indices
(tda/streaming.py lines 135-144). -/
inductive WSTimesaleEquityField where
  | SYMBOL
  | TRADE_TIME
  | LAST_PRICE
  | LAST_SIZE
  | LAST_SEQUENCE
  deriving DecidableEq, Repr

/-- tda.streaming.WSTimesaleEquityField member numeric values. -/
def WSTimesaleEquityField.val : WSTimesaleEquityField → Nat
  | .SYMBOL => 0
  | .TRADE_TIME => 1
  | .LAST_PRICE => 2
  | .LAST_SIZE => 3
  | .LAST_SEQUENCE => 4

/-- Positional field map of the CHART_EQUITY branch of _ws_distill_data
(tda/streaming.py lines 552-559), in the dict insertion order of the
source, paired with the canonical field each index maps to. Keys carry the
str(ws_field.value) form the source compares against. -/
def chartFieldMap : List (String × ChartBarField) :=
  [("7", .TIMESTAMP), ("1", .OPEN_PRICE), ("2", .HIGH_PRICE),
   ("3", .LOW_PRICE), ("4", .CLOSE_PRICE), ("5", .VOLUME)]

/-- Positional field map of the OPTION branch of _ws_distill_data
(tda/streaming.py lines 570-582), in source dict order. -/
def optionFieldMap : List (String × OptionContractField) :=
  [("2", .BID_PRICE), ("3", .ASK_PRICE), ("4", .LAST_PRICE),
   ("41", .MARK_PRICE), ("8", .VOLUME), ("10", .VOLATILITY),
   ("9", .OPEN_INTEREST), ("20", .BID_SIZE), ("21", .ASK_SIZE),
   ("22", .LAST_SIZE), ("32", .DELTA)]

/-- Positional field map of the QUOTE branch of _ws_distill_data
(tda/streaming.py lines 592-603), in source dict order. -/
def quoteFieldMap : List (String × QuoteField) :=
  [("1", .BID_PRICE), ("2", .ASK_PRICE), ("3", .LAST_PRICE),
   ("49", .MARK_PRICE), ("4", .BID_SIZE), ("5", .ASK_SIZE),
   ("9", .LAST_SIZE), ("24", .VOLATILITY), ("50", .QUOTE_TIMESTAMP),
   ("51", .LAST_TIMESTAMP)]

/-- The dict comprehension shared by the chart/option/quote branches: walk
the positional field map in order, keep only indices present in the record,
and coerce each present raw value with the canonical field's typecast; a
failing coercion raises out of the whole comprehension. -/
def coerceMapped {F : Type} (cast : F → TCast) :
    List (String × F) → JVal → Except PyErr (List (F × JVal))
  | [], _ => .ok []
  | (i, fld) :: rest, rec =>
    match jGet rec i with
    | none => coerceMapped cast rest rec
    | some raw =>
      match tcApply (cast fld) raw with
      | .error e => .error e
      | .ok v =>
        match coerceMapped cast rest rec with
        | .error e => .error e
        | .ok tl => .ok ((fld, v) :: tl)

/-- One CHART_EQUITY record: the coerced mapped fields followed by the
symbol taken raw from the record's key entry (tda/streaming.py lines
560-565; the key is stored without a typecast). -/
def distillChartBar (bar : JVal) : Except PyErr (List (ChartBarField × JVal)) :=
  match coerceMapped ChartBarField.typecast chartFieldMap bar with
  | .error e => .error e
  | .ok prime =>
    match pyGetItem bar "key" with
    | .error e => .error e
    | .ok k => .ok (prime ++ [(ChartBarField.SYMBOL, k)])

/-- One OPTION record (tda/streaming.py lines 569-588). -/
def distillOption (opt : JVal) : Except PyErr (List (OptionContractField × JVal)) :=
  match coerceMapped OptionContractField.typecast optionFieldMap opt with
  | .error e => .error e
  | .ok prime =>
    match pyGetItem opt "key" with
    | .error e => .error e
    | .ok k => .ok (prime ++ [(OptionContractField.SYMBOL, k)])

/-- One QUOTE record (tda/streaming.py lines 591-609). -/
def distillQuote (q : JVal) : Except PyErr (List (QuoteField × JVal)) :=
  match coerceMapped QuoteField.typecast quoteFieldMap q with
  | .error e => .error e
  | .ok prime =>
    match pyGetItem q "key" with
    | .error e => .error e
    | .ok k => .ok (prime ++ [(QuoteField.SYMBOL, k)])

/-- One TIMESALE_EQUITY record (tda/streaming.py lines 612-619): direct
subscriptions, raising KeyError on any absent index, with int() applied to
the trade size only. -/
def distillTimesale (ts : JVal) : Except PyErr (List (WSTimesaleEquityField × JVal)) :=
  match pyGetItem ts "key" with
  | .error e => .error e
  | .ok k =>
    match pyGetItem ts "1" with
    | .error e => .error e
    | .ok tt =>
      match pyGetItem ts "2" with
      | .error e => .error e
      | .ok lp =>
        match pyGetItem ts "3" with
        | .error e => .error e
        | .ok lsRaw =>
          match tcApply .tint lsRaw with
          | .error e => .error e
          | .ok ls =>
            match pyGetItem ts "4" with
            | .error e => .error e
            | .ok seq =>
              .ok [(.SYMBOL, k), (.TRADE_TIME, tt), (.LAST_PRICE, lp),
                   (.LAST_SIZE, ls), (.LAST_SEQUENCE, seq)]

/-- List traversal of the per-record distillers: the source's for-loop, so
the first raising record aborts the whole frame. -/
def distillList {α : Type} (f : JVal → Except PyErr α) :
    List JVal → Except PyErr (List α)
  | [] => .ok []
  | x :: xs =>
    match f x with
    | .error e => .error e
    | .ok y =>
      match distillList f xs with
      | .error e => .error e
      | .ok ys => .ok (y :: ys)

/-- Canonical decoded payload of one data frame, by service. The
ACCT_ACTIVITY branch has no success shape: every recognized message type
raises before its record is completed (see wsDistillData). -/
inductive Distilled where
  | chart (recs : List (List (ChartBarField × JVal)))
  | opts (recs : List (List (OptionContractField × JVal)))
  | quotes (recs : List (List (QuoteField × JVal)))
  | timesale (recs : List (List (WSTimesaleEquityField × JVal)))

/-- Message types the ACCT_ACTIVITY branch recognizes
(tda/streaming.py lines 535-542). -/
def recognizedMessageTypes : List String :=
  ["ORDERENTRYREQUEST", "ORDERFILL", "UROUT", "ORDERREJECTION"]

/-- The ACCT_ACTIVITY branch of _ws_distill_data (tda/streaming.py lines
532-549) on the first content entry: an unrecognized message type returns
None (no record); a recognized one assigns tda.OrderStatus.X.value, but the
tda package namespace defines no OrderStatus attribute (the class lives in
tda.api and tda/__init__.py never imports it), so the assignment raises
AttributeError — as would the later ET.fromstring call, ET being unimported. -/
def distillAcct (c0 : JVal) : Except PyErr (Option Distilled) :=
  match pyGetItem c0 "2" with
  | .error e => .error e
  | .ok raw =>
    let mt := strUpper (strStrip (pyStr raw))
    if recognizedMessageTypes.contains mt then .error .attributeError
    else .ok none

/-- tda.streaming._ws_distill_data (tda/streaming.py lines 512-623).
Returns .ok none where the source returns None (missing/empty content,
unrecognized account-activity message type, unhandled service). -/
def wsDistillData (data : JVal) : Except PyErr (Option Distilled) :=
  match pyGetItem data "service" with
  | .error e => .error e
  | .ok sv =>
    match serviceOfJ sv with
    | .error e => .error e
    | .ok service =>
      if !hasKeyB data "content" then .ok none
      else
        match jGet data "content" with
        | some (.jarr content) =>
          if content.length == 0 then .ok none
          else
            match service with
            | .ACCT_ACTIVITY =>
              match content.head? with
              | some c0 => distillAcct c0
              | none => .error .indexError
            | .CHART_EQUITY =>
              match distillList distillChartBar content with
              | .error e => .error e
              | .ok recs => .ok (some (.chart recs))
            | .OPTION =>
              match distillList distillOption content with
              | .error e => .error e
              | .ok recs => .ok (some (.opts recs))
            | .QUOTE =>
              match distillList distillQuote content with
              | .error e => .error e
              | .ok recs => .ok (some (.quotes recs))
            | .TIMESALE_EQUITY =>
              match distillList distillTimesale content with
              | .error e => .error e
              | .ok recs => .ok (some (.timesale recs))
            | .ADMIN => .ok none
        | _ => .error .typeError

/-- The per-service registry entry that _ws_subscribe stores into the ws
dict (tda/streaming.py lines 704-710). Field enums are represented by their
numeric wire values; callbacks and their context objects by opaque numeric
identities; cb_data stays optional because its default is None. -/
structure SubParams where
  fields : List Nat
  symbols : Option (List String)
  process_first_data : Bool
  cb_functions : List Nat
  cb_data : Option (List Nat)
  deriving DecidableEq, Repr

/-- The subscription entries of the ws dict, keyed by service the way the
source keys them by service.value strings (the service value strings never
collide with the five fixed keys of the dict). -/
abbrev Registry : Type := List (WSService × SubParams)

/-- ws dict read ws[service.value] restricted to subscription entries. -/
def regGet : Registry → WSService → Option SubParams
  | [], _ => none
  | (k, v) :: rest, s => if k = s then some v else regGet rest s

/-- ws dict write ws[service.value] = entry: replace in place when present,
append otherwise, matching dict assignment. -/
def regPut : Registry → WSService → SubParams → Registry
  | [], s, p => [(s, p)]
  | (k, v) :: rest, s, p =>
    if k = s then (s, p) :: rest else (k, v) :: regPut rest s p

/-- One callback invocation: which callback ran and the context it was
handed. All invocations of one frame share that frame's decoded records, so
the records are not repeated per invocation. -/
abbrev Invocation : Type := Nat × Nat

/-- The callback loops of _ws_subscribe and ws_listen
(tda/streaming.py lines 317-321 and 713-718): each callback is called with
cb_data[idx]. The index read happens before the call, so a None cb_data
raises TypeError and a short list IndexError; a callback that itself raises
does so after being entered, and nothing catches it. The behavior parameter
tells which callback identities raise. -/
def runCallbacks (raises : Nat → Bool) :
    List Nat → Nat → Option (List Nat) → List Invocation × Option PyErr
  | [], _, _ => ([], none)
  | _ :: _, _, none => ([], some .typeError)
  | cb :: rest, idx, some ctxs =>
    match ctxs.get? idx with
    | none => ([], some .indexError)
    | some ctx =>
      if raises cb then ([(cb, ctx)], some .callbackError)
      else
        match runCallbacks raises rest (idx + 1) (some ctxs) with
        | (inv, e) => ((cb, ctx) :: inv, e)

/-- The client websocket handle dict produced by ws_connect
(tda/streaming.py lines 222-228), restricted to the parts the claims
observe: the selected account, the requested quality of service, the
request-id counter, and the (initially empty) subscription entries. -/
structure WsHandle where
  account_id : String
  qos : Nat
  next_request_id : Nat
  registry : Registry
  deriving DecidableEq, Repr

/-- response['response'][0]['content']['code'] as read by ws_connect,
ws_disconnect and _ws_subscribe on the first frame carrying a response key. -/
def respCode (frame : JVal) : Except PyErr JVal :=
  match pyGetItem frame "response" with
  | .error e => .error e
  | .ok r =>
    match jIndex r 0 with
    | .error e => .error e
    | .ok r0 =>
      match pyGetItem r0 "content" with
      | .error e => .error e
      | .ok c => pyGetItem c "code"

/-- Consume inbound frames until one satisfies the predicate, returning it
with the frames still unread (the while-not-in-response receive loops of
the source); exhaustion models the transport failing while waiting. -/
def splitAtFirst (p : JVal → Bool) : List JVal → Option (JVal × List JVal)
  | [] => none
  | f :: fs => if p f then some (f, fs) else splitAtFirst p fs

/-- tda.streaming.ws_connect after the login request is sent
(tda/streaming.py lines 211-228): frames are pulled until one carries a
response key, its content code is read and a non-zero code is only logged
(logger.error) — the websocket handle is built and returned either way,
with no retry, no raised error and no closed state. -/
def wsConnectModel (account_id : String) (qos : Nat) (frames : List JVal) :
    Except PyErr WsHandle :=
  match splitAtFirst (fun f => hasKeyB f "response") frames with
  | none => .error .connectionClosed
  | some (resp, _) =>
    match respCode resp with
    | .error e => .error e
    | .ok _code => .ok ⟨account_id, qos, 1, []⟩

/-- Everything one _ws_subscribe call changes or produces: the subscription
entries after the call, the callback invocations it performed, and the
exception it raised, if any. A raised exception does not undo an already
performed registry write. -/
structure SubscribeOutcome where
  registry : Registry
  invoked : List Invocation
  error : Option PyErr

/-- data_service of _ws_subscribe (tda/streaming.py line 701): None when
the first data entry has no service key, otherwise WSService(tag), whose
failure on an unknown tag raises. -/
def dataServiceOpt (entry : JVal) : Except PyErr (Option WSService) :=
  match jGet entry "service" with
  | none => .ok none
  | some sv =>
    match serviceOfJ sv with
    | .error e => .error e
    | .ok s => .ok (some s)

/-- The receive-and-decode phase of _ws_subscribe (tda/streaming.py lines
688-703), everything before the registry write: wait for a response frame
(a non-zero code is only logged), then for a data frame; read its first
data entry, resolve that entry's own service tag (data_service, None when
the entry carries no tag), and distill the entry. -/
def wsSubscribePre (frames : List JVal) :
    Except PyErr (Option WSService × Option Distilled) :=
  match splitAtFirst (fun f => hasKeyB f "response") frames with
  | none => .error .connectionClosed
  | some (resp, rest) =>
    match respCode resp with
    | .error e => .error e
    | .ok _code =>
      match splitAtFirst (fun f => hasKeyB f "data") rest with
      | none => .error .connectionClosed
      | some (dframe, _) =>
        match pyGetItem dframe "data" with
        | .error e => .error e
        | .ok dlist =>
          match jIndex dlist 0 with
          | .error e => .error e
          | .ok entry =>
            match dataServiceOpt entry with
            | .error e => .error e
            | .ok data_service =>
              match wsDistillData entry with
              | .error e => .error e
              | .ok distilled => .ok (data_service, distilled)

/-- tda.streaming._ws_subscribe (tda/streaming.py lines 641-719) from the
point the subscribe request is on the wire: after the receive-and-decode
phase, store the new registry entry under the requested service, and, when
process_first_data is set and the distilled payload is not None, invoke
the callbacks registered under the DATA ENTRY'S tag — not the requested
service — pairing each with that entry's cb_data by position. -/
def wsSubscribeModel (reg : Registry) (raises : Nat → Bool)
    (service : WSService) (fields : List Nat) (symbols : Option (List String))
    (process_first_data : Bool) (cb_functions : List Nat)
    (cb_data : Option (List Nat)) (frames : List JVal) : SubscribeOutcome :=
  match wsSubscribePre frames with
  | .error e => ⟨reg, [], some e⟩
  | .ok (data_service, distilled) =>
    let reg' := regPut reg service
      ⟨fields, symbols, process_first_data, cb_functions, cb_data⟩
    if process_first_data && distilled.isSome then
      match data_service with
      | none => ⟨reg', [], some .attributeError⟩
      | some ds =>
        match regGet reg' ds with
        | none => ⟨reg', [], some .keyError⟩
        | some entry' =>
          match runCallbacks raises entry'.cb_functions 0 entry'.cb_data with
          | (inv, e) => ⟨reg', inv, e⟩
    else ⟨reg', [], none⟩

/-- The four services _ws_resubscribe iterates over
(tda/streaming.py line 634); TIMESALE_EQUITY is absent from the tuple. -/
def resubscribeServices : List WSService :=
  [.ACCT_ACTIVITY, .CHART_EQUITY, .OPTION, .QUOTE]

/-- tda.streaming._ws_resubscribe (tda/streaming.py lines 625-639): the
subscribe requests re-sent after a reconnect, each with the stored
parameters of its live registry entry, in tuple order. -/
def wsResubscribeRequests (reg : Registry) : List (WSService × SubParams) :=
  resubscribeServices.filterMap (fun s => (regGet reg s).map (fun p => (s, p)))

/-- One data entry of a data frame inside ws_listen
(tda/streaming.py lines 308-321): entries without a service key are
skipped, the tag is resolved through WSService (which raises on unknown
tags), unregistered services are skipped, the entry is distilled (a raised
exception propagates, a None payload is skipped) and the registered
callbacks run with their positional cb_data. -/
def listenEntry (reg : Registry) (raises : Nat → Bool) (entry : JVal) :
    List Invocation × Option PyErr :=
  match jGet entry "service" with
  | none => ([], none)
  | some sv =>
    match serviceOfJ sv with
    | .error e => ([], some e)
    | .ok service =>
      match regGet reg service with
      | none => ([], none)
      | some sub =>
        match wsDistillData entry with
        | .error e => ([], some e)
        | .ok none => ([], none)
        | .ok (some _) => runCallbacks raises sub.cb_functions 0 sub.cb_data

/-- The for-loop over response['data'] (tda/streaming.py line 308): the
first uncaught exception aborts the loop, keeping the invocations already
performed. -/
def listenEntries (reg : Registry) (raises : Nat → Bool) :
    List JVal → List Invocation × Option PyErr
  | [] => ([], none)
  | entry :: rest =>
    match listenEntry reg raises entry with
    | (inv, some e) => (inv, some e)
    | (inv, none) =>
      match listenEntries reg raises rest with
      | (inv', e) => (inv ++ inv', e)

/-- One iteration of ws_listen's message handling on a received frame
(tda/streaming.py lines 294-321): notify frames are skipped; response
frames only have their status code checked and logged; frames without a
data key are skipped; data frames are dispatched entry by entry. An
exception anywhere — a failing callback included — propagates out of
ws_listen, terminating the receive loop. -/
def wsListenStep (reg : Registry) (raises : Nat → Bool) (frame : JVal) :
    List Invocation × Option PyErr :=
  if hasKeyB frame "notify" then ([], none)
  else if hasKeyB frame "response" then
    match jGet frame "response" with
    | some (.jarr rs) =>
      if rs.length == 1 then
        match rs.head? with
        | some r0 =>
          if hasKeyB r0 "content" then
            match pyGetItem r0 "content" with
            | .error e => ([], some e)
            | .ok c =>
              match pyGetItem c "code" with
              | .error e => ([], some e)
              | .ok _ => ([], none)
          else ([], none)
        | none => ([], none)
      else ([], none)
    | _ => ([], some .typeError)
  else if !hasKeyB frame "data" then ([], none)
  else
    match jGet frame "data" with
    | some (.jarr entries) => listenEntries reg raises entries
    | _ => ([], some .typeError)

/-- Record lookup in a decoded canonical record. -/
def recGet {F : Type} [DecidableEq F] (r : List (F × JVal)) (f : F) : Option JVal :=
  (r.find? (fun p => decide (p.1 = f))).map (fun p => p.2)

/-- Number of canonical records a distill result carries. -/
def distilledCount : Except PyErr (Option Distilled) → Nat
  | .ok (some (.chart recs)) => recs.length
  | .ok (some (.opts recs)) => recs.length
  | .ok (some (.quotes recs)) => recs.length
  | .ok (some (.timesale recs)) => recs.length
  | _ => 0

/-- Callback behavior where no callback raises. -/
def neverRaises : Nat → Bool := fun _ => false

/-- A data frame wrapping a single data entry. -/
def mkDataFrame (entry : JVal) : JVal :=
  .jobj [("data", .jarr [entry])]

/-- An ACCT_ACTIVITY data frame with the given content list. -/
def mkAcctFrame (content : List JVal) : JVal :=
  .jobj [("service", .jstr "ACCT_ACTIVITY"), ("content", .jarr content)]

/-- A CHART_EQUITY data frame with the given bar list. -/
def mkChartFrame (bars : List JVal) : JVal :=
  .jobj [("service", .jstr "CHART_EQUITY"), ("content", .jarr bars)]

/-- A live TIMESALE_EQUITY subscription descriptor. -/
def c1tsParams : SubParams := ⟨[0, 1, 2, 3, 4], some ["AAPL"], true, [1], some [0]⟩

/-- A registry whose only live descriptor is TIMESALE_EQUITY's. -/
def c1regTS : Registry := [(.TIMESALE_EQUITY, c1tsParams)]

/-- A live QUOTE subscription descriptor. -/
def c1qParams : SubParams := ⟨[0, 1], some ["SPY"], true, [2], some [3]⟩

/-- A registry whose only live descriptor is QUOTE's. -/
def c1regQ : Registry := [(.QUOTE, c1qParams)]

/-- The rejected-login response frame of the spec scenario: content code 3,
message bad token. -/
def c2rejectFrame : JVal :=
  .jobj [("response", .jarr [.jobj [("content",
    .jobj [("code", .jint 3), ("msg", .jstr "bad token")])]])]

/-- An accepted-login response frame: content code 0. -/
def c2okFrame : JVal :=
  .jobj [("response", .jarr [.jobj [("content", .jobj [("code", .jint 0)])]])]

/-- A chart bar whose open price fails float coercion next to a well-formed
sibling bar. -/
def c4frame : JVal :=
  mkChartFrame [.jobj [("key", .jstr "A"), ("1", .jstr "abc")],
                .jobj [("key", .jstr "B"), ("1", .jstr "1.0")]]

/-- The well-formed sibling of c4frame alone. -/
def c4siblingFrame : JVal :=
  mkChartFrame [.jobj [("key", .jstr "B"), ("1", .jstr "1.0")]]

/-- A chart bar whose only mapped field is an open price with the given raw
string. -/
def c4badBar (s : String) : JVal :=
  .jobj [("key", .jstr "A"), ("1", .jstr s)]

/-- The spec scenario's ACCT_ACTIVITY frame with message-type UROUT. -/
def c5uroutFrame : JVal :=
  mkAcctFrame [.jobj [("1", .jstr "acct1"), ("2", .jstr "UROUT"),
    ("3", .jstr "orderxml")]]

/-- The spec scenario's ACCT_ACTIVITY frame with unrecognized message-type
FOOBAR. -/
def c5foobarFrame : JVal :=
  mkAcctFrame [.jobj [("1", .jstr "acct1"), ("2", .jstr "FOOBAR"),
    ("3", .jstr "orderxml")]]

/-- The spec scenario's CHART_EQUITY data frame. -/
def c6frame : JVal :=
  mkChartFrame [.jobj [("key", .jstr "XYZ"), ("1", .jstr "10.0"),
    ("2", .jstr "10.5"), ("7", .jint 1700000000000)]]

/-- The canonical record the spec scenario's frame decodes to; 10.5 is the
exact decimal 105 / 10 ^ 1. -/
def c6rec : List (ChartBarField × JVal) :=
  [(.TIMESTAMP, .jint 1700000000000), (.OPEN_PRICE, .jfloat ⟨10, 0⟩),
   (.HIGH_PRICE, .jfloat ⟨105, 1⟩), (.SYMBOL, .jstr "XYZ")]

/-- A pre-existing OPTION descriptor for the replace-wholesale scenario. -/
def c7optParams : SubParams := ⟨[0, 2, 3], some ["OPT1"], true, [5], some [6]⟩

/-- A registry holding OPTION and QUOTE descriptors. -/
def c7reg : Registry :=
  [(.OPTION, c7optParams), (.QUOTE, c1qParams)]

/-- Frames driving one successful subscribe call: a zero-code confirmation
followed by a data frame. -/
def c7frames : List JVal :=
  [c2okFrame, mkDataFrame (.jobj [("service", .jstr "QUOTE"),
    ("content", .jarr [.jobj [("key", .jstr "QQQ")]])])]

/-- A QUOTE descriptor whose first callback raises (identity 0) while the
second (identity 1) works. -/
def c8sub : SubParams := ⟨[0, 1, 2, 3], some ["AAA"], true, [0, 1], some [10, 11]⟩

/-- The registry of the failing-callback scenario. -/
def c8reg : Registry := [(.QUOTE, c8sub)]

/-- Callback behavior where exactly callback identity 0 raises. -/
def c8raises : Nat → Bool := fun n => n == 0

/-- A QUOTE data frame for the failing-callback scenario. -/
def c8frame : JVal :=
  mkDataFrame (.jobj [("service", .jstr "QUOTE"),
    ("content", .jarr [.jobj [("key", .jstr "AAA")]])])

/-- The QUOTE descriptor already live before the mismatched-tag subscribe:
callback identity 7 with context 40. -/
def c9qSub : SubParams := ⟨[0, 1, 2, 3], some ["AAA"], true, [7], some [40]⟩

/-- The registry before the CHART_EQUITY subscribe call. -/
def c9reg : Registry := [(.QUOTE, c9qSub)]

/-- Frames answering the CHART_EQUITY subscribe: a zero-code confirmation,
then a first data frame tagged QUOTE rather than CHART_EQUITY. -/
def c9frames : List JVal :=
  [c2okFrame, mkDataFrame (.jobj [("service", .jstr "QUOTE"),
    ("content", .jarr [.jobj [("key", .jstr "AAA")]])])]

/-- A QUOTE descriptor whose callbacks are identities 5 and 6 with contexts
50 and 51, the first of which raises. -/
def c8wSub : SubParams := ⟨[0, 1], some ["BBB"], true, [5, 6], some [50, 51]⟩

/-- Registry for the general failing-callback witness. -/
def c8wReg : Registry := [(.QUOTE, c8wSub)]

/-- Data entry for the general failing-callback witness. -/
def c8wEntry : JVal :=
  .jobj [("service", .jstr "QUOTE"),
    ("content", .jarr [.jobj [("key", .jstr "BBB")]])]

/-- Callback behavior where exactly callback identity 5 raises. -/
def c8wRaises : Nat → Bool := fun n => n == 5

/-- Lookup after an in-place replace-or-append write finds the written
entry. -/
theorem regGet_regPut_same (reg : Registry) (s : WSService) (p : SubParams) :
    regGet (regPut reg s p) s = some p := by
  induction reg with
  | nil => simp [regPut, regGet]
  | cons kv rest ih =>
    by_cases h : kv.1 = s
    · simp [regPut, regGet, h]
    · simp [regPut, regGet, h, ih]

/-- A replace-or-append write leaves every other key's entry unchanged. -/
theorem regGet_regPut_other (reg : Registry) (s t : WSService) (p : SubParams)
    (h : t ≠ s) : regGet (regPut reg s p) t = regGet reg t := by
  induction reg with
  | nil => simp [regPut, regGet, Ne.symm h]
  | cons kv rest ih =>
    by_cases hk : kv.1 = s
    · subst hk
      simp [regPut, regGet, Ne.symm h]
    · simp [regPut, regGet, hk, ih]

/-- The account-activity branch never completes a record: it raises or
filters, so its record count is zero. -/
theorem distilledCount_distillAcct (c0 : JVal) :
    distilledCount (distillAcct c0) = 0 := by
  unfold distillAcct
  rcases hp : pyGetItem c0 "2" with e | raw
  · rfl
  · dsimp only
    split
    · rfl
    · rfl

/-- C1 counterexample: the claim that every domain with a live Subscription
Descriptor (for all five domains) is re-sent on reconnect is false — a
registry whose only live descriptor is TIMESALE_EQUITY's produces an empty
replay list, because _ws_resubscribe iterates over a four-element tuple
that omits TIMESALE_EQUITY. -/
theorem C1_timesale_not_replayed :
    regGet c1regTS .TIMESALE_EQUITY = some c1tsParams ∧
    wsResubscribeRequests c1regTS = [] := ⟨rfl, rfl⟩

/-- C1 amended: after a reconnect, every live descriptor of a subscribable
domain other than TIMESale_EQUITY — that is, ACCT_ACTIVITY, CHART_EQUITY,
OPTION and QUOTE — is re-sent as a subscribe request with its stored
parameters; TIMESALE_EQUITY descriptors are never replayed. -/
theorem C1_replay_covers_four_domains (reg : Registry) (s : WSService)
    (p : SubParams) (hlive : regGet reg s = some p)
    (hts : s ≠ .TIMESALE_EQUITY) (ha : s ≠ .ADMIN) :
    (s, p) ∈ wsResubscribeRequests reg := by
  have hmem : s ∈ resubscribeServices := by
    cases s <;> simp_all [resubscribeServices]
  rw [wsResubscribeRequests, List.mem_filterMap]
  exact ⟨s, hmem, by rw [hlive]; rfl⟩

/-- C1 witness: a live QUOTE descriptor is replayed with its stored
parameters. -/
theorem C1_replay_witness :
    (WSService.QUOTE, c1qParams) ∈ wsResubscribeRequests c1regQ :=
  C1_replay_covers_four_domains c1regQ .QUOTE c1qParams rfl
    (by decide) (by decide)

/-- C2: on a login response with non-zero content code 3, ws_connect logs
the rejection but still returns the connected websocket handle — identical
to the handle returned for an accepted login — rather than failing with a
ControlRejected error and a Closed session, contradicting its own
docstring, which promises None on error. -/
theorem C2_login_rejection_still_returns_handle :
    wsConnectModel "ACC1" 2 [c2rejectFrame] = .ok ⟨"ACC1", 2, 1, []⟩ ∧
    wsConnectModel "ACC1" 2 [c2rejectFrame]
      = wsConnectModel "ACC1" 2 [c2okFrame] := ⟨rfl, rfl⟩

/-- C3 counterexample: resolution is not total for every lookup class used
by the engine — the streaming service enum WSService has _missing_ but no
UNSUPPORTED member, so resolving the unknown wire name FOOBAR raises
AttributeError instead of returning a sentinel. -/
theorem C3_wsservice_lookup_raises :
    WSService_resolve "FOOBAR" = .error .attributeError := rfl

/-- C3 amended: the canonical field enums that define an UNSUPPORTED member
(ChartBarField, OptionContractField, QuoteField, InstrumentType) resolve
names case-insensitively after stripping and return UNSUPPORTED on no
match, never raising; WSService and WSCommand, which delegate to the same
search without an UNSUPPORTED member, raise AttributeError on unknown
names instead. -/
theorem C3_sentinel_enums_total (name : String)
    (h : (chartBarMembers.filter
      (fun p => strLower p.2 == strLower (strStrip name))).head? = none) :
    ChartBarField_resolve name = .UNSUPPORTED ∧
    ChartBarField_resolve "OPEN" = .OPEN_PRICE ∧
    QuoteField_resolve "BIDPRICE" = .BID_PRICE ∧
    OptionContractField_resolve " delta " = .DELTA ∧
    InstrumentType_resolve "equity" = .ok .EQUITY := by
  refine ⟨?_, rfl, rfl, rfl, rfl⟩
  rw [ChartBarField_resolve, enumCiSearchByTypecastedValue, h]

/-- C3 witness: the unknown name FOOBARBAZ matches no ChartBarField api_key
and resolves to the UNSUPPORTED sentinel without raising. -/
theorem C3_sentinel_witness :
    ChartBarField_resolve "FOOBARBAZ" = .UNSUPPORTED ∧
    ChartBarField_resolve "OPEN" = .OPEN_PRICE ∧
    QuoteField_resolve "BIDPRICE" = .BID_PRICE ∧
    OptionContractField_resolve " delta " = .DELTA ∧
    InstrumentType_resolve "equity" = .ok .EQUITY :=
  C3_sentinel_enums_total "FOOBARBAZ" rfl

/-- C4 counterexample: a failed typed coercion does not produce a
MalformedFieldError and does not drop only the offending record — the
uncaught ValueError aborts the whole CHART_EQUITY frame, losing the
well-formed sibling record that decodes fine on its own. -/
theorem C4_coercion_failure_aborts_frame :
    wsDistillData c4frame = .error .valueError ∧
    wsDistillData c4siblingFrame
      = .ok (some (.chart [[(.OPEN_PRICE, .jfloat ⟨1, 0⟩),
          (.SYMBOL, .jstr "B")]])) := ⟨rfl, rfl⟩

/-- C4 amended: when a record's raw open-price string fails float
coercion, the ValueError raised by the conversion propagates uncaught and
decoding of the entire frame aborts, whatever sibling records follow; no
MalformedFieldError type exists in the code and no sibling is decoded. -/
theorem C4_uncaught_valueerror (s : String) (rest : List JVal)
    (h : parseDecimal s = none) :
    wsDistillData (mkChartFrame (c4badBar s :: rest)) = .error .valueError := by
  have htc : tcApply .tfloat (.jstr s) = .error .valueError := by
    show (match parseDecimal s with
          | some d => Except.ok (JVal.jfloat d)
          | none => Except.error PyErr.valueError)
        = Except.error PyErr.valueError
    rw [h]
  simp [wsDistillData, mkChartFrame, c4badBar, pyGetItem, jGet, serviceOfJ,
    WSService_resolve, wsServiceMembers, enumCiSearchByValue, hasKeyB,
    distillList, distillChartBar, coerceMapped, chartFieldMap,
    ChartBarField.typecast, htc]

/-- C4 witness: the unparsable raw value abc aborts a one-record frame. -/
theorem C4_uncaught_valueerror_witness :
    wsDistillData (mkChartFrame [c4badBar "abc"]) = .error .valueError :=
  C4_uncaught_valueerror "abc" [] rfl

/-- C5: decoding an ACCT_ACTIVITY payload with message-type UROUT raises
AttributeError instead of yielding status CANCELED, because the branch
reads tda.OrderStatus — an attribute the tda package namespace does not
define (OrderStatus lives in tda.api) — and would next call ET.fromstring
with ET never imported; the unrecognized message-type FOOBAR is filtered
to no record as the claim states. -/
theorem C5_urout_raises_instead_of_canceled :
    wsDistillData c5uroutFrame = .error .attributeError ∧
    wsDistillData c5foobarFrame = .ok none := ⟨rfl, rfl⟩

/-- C6: the CHART_EQUITY payload with key XYZ, raw open 10.0, raw high 10.5
and timestamp 1700000000000 decodes to exactly one record with symbol XYZ,
open price the exact decimal 10, high price the exact decimal 105/10^1,
integer timestamp 1700000000000, and the low-price, close-price and volume
fields absent from the record rather than defaulted to zero. -/
theorem C6_chart_equity_scenario :
    wsDistillData c6frame = .ok (some (.chart [c6rec])) ∧
    recGet c6rec .SYMBOL = some (.jstr "XYZ") ∧
    recGet c6rec .OPEN_PRICE = some (.jfloat ⟨10, 0⟩) ∧
    recGet c6rec .HIGH_PRICE = some (.jfloat ⟨105, 1⟩) ∧
    recGet c6rec .TIMESTAMP = some (.jint 1700000000000) ∧
    recGet c6rec .LOW_PRICE = none ∧
    recGet c6rec .CLOSE_PRICE = none ∧
    recGet c6rec .VOLUME = none :=
  ⟨rfl, rfl, rfl, rfl, rfl, rfl, rfl, rfl⟩

/-- C7: after a subscribe call for a domain succeeds (raises no exception),
the registry entry for that domain holds exactly the fields, symbols,
process_first_data flag and consumer lists passed to the call — a second
subscribe replaces any prior entry wholesale — and the entry of every
other domain is unchanged. -/
theorem C7_registry_replaced_wholesale (reg : Registry) (raises : Nat → Bool)
    (service : WSService) (fields : List Nat) (symbols : Option (List String))
    (pfd : Bool) (cbs : List Nat) (cbdata : Option (List Nat))
    (frames : List JVal) (other : WSService)
    (hok : (wsSubscribeModel reg raises service fields symbols pfd cbs
      cbdata frames).error = none)
    (hother : other ≠ service) :
    regGet (wsSubscribeModel reg raises service fields symbols pfd cbs
        cbdata frames).registry service
      = some ⟨fields, symbols, pfd, cbs, cbdata⟩ ∧
    regGet (wsSubscribeModel reg raises service fields symbols pfd cbs
        cbdata frames).registry other
      = regGet reg other := by
  have hreg : (wsSubscribeModel reg raises service fields symbols pfd cbs
        cbdata frames).registry
      = regPut reg service ⟨fields, symbols, pfd, cbs, cbdata⟩ := by
    unfold wsSubscribeModel at hok ⊢
    rcases hpre : wsSubscribePre frames with e | ⟨ds, dist⟩
    · try rw [hpre] at hok
      simp at hok
    · try rw [hpre] at hok ⊢
      dsimp only at hok ⊢
      split
      · rcases ds with _ | ds'
        · rfl
        · dsimp only
          rcases regGet (regPut reg service ⟨fields, symbols, pfd, cbs,
            cbdata⟩) ds' with _ | entry'
          · rfl
          · rfl
      · rfl
  rw [hreg]
  exact ⟨regGet_regPut_same reg service _,
    regGet_regPut_other reg service other _ hother⟩

/-- C7 witness: re-subscribing OPTION with new parameters replaces its old
descriptor wholesale and leaves the QUOTE descriptor untouched. -/
theorem C7_registry_witness :
    regGet (wsSubscribeModel c7reg neverRaises .OPTION [0, 1] (some ["XYZ"])
        false [3] (some [4]) c7frames).registry .OPTION
      = some ⟨[0, 1], some ["XYZ"], false, [3], some [4]⟩ ∧
    regGet (wsSubscribeModel c7reg neverRaises .OPTION [0, 1] (some ["XYZ"])
        false [3] (some [4]) c7frames).registry .QUOTE
      = regGet c7reg .QUOTE :=
  C7_registry_replaced_wholesale c7reg neverRaises .OPTION [0, 1]
    (some ["XYZ"]) false [3] (some [4]) c7frames .QUOTE rfl (by decide)

/-- C8 counterexample: with QUOTE consumers 0 and 1 registered and callback
0 raising, dispatching a QUOTE data frame invokes only callback 0 and the
exception propagates out of the listen step — callback 1 is never invoked
and the receive loop does not survive, so nothing is caught and logged. -/
theorem C8_raising_callback_stops_dispatch :
    wsListenStep c8reg c8raises c8frame
      = ([(0, 10)], some .callbackError) := rfl

/-- C8 amended: when the first registered callback for a dispatched data
frame raises, the exception propagates uncaught out of the receive loop:
the raising callback is the only one invoked, every remaining callback for
that frame is skipped, and ws_listen terminates with the exception. -/
theorem C8_callback_exception_propagates (reg : Registry)
    (raises : Nat → Bool) (entry sv : JVal) (service : WSService)
    (sub : SubParams) (cb : Nat) (rest : List Nat) (ctx : Nat)
    (ctxs : List Nat) (d : Distilled)
    (h1 : jGet entry "service" = some sv)
    (h2 : serviceOfJ sv = .ok service)
    (h3 : regGet reg service = some sub)
    (h4 : sub.cb_functions = cb :: rest)
    (h5 : sub.cb_data = some (ctx :: ctxs))
    (h6 : raises cb = true)
    (h7 : wsDistillData entry = .ok (some d)) :
    wsListenStep reg raises (mkDataFrame entry)
      = ([(cb, ctx)], some .callbackError) := by
  have k1 : hasKeyB (mkDataFrame entry) "notify" = false := rfl
  have k2 : hasKeyB (mkDataFrame entry) "response" = false := rfl
  have k3 : hasKeyB (mkDataFrame entry) "data" = true := rfl
  have k4 : jGet (mkDataFrame entry) "data" = some (.jarr [entry]) := rfl
  simp [wsListenStep, k1, k2, k3, k4, listenEntries, listenEntry,
    h1, h2, h3, h4, h5, h7, runCallbacks, h6]

/-- C8 witness: with QUOTE consumers 5 and 6 registered and callback 5
raising, the dispatch of a QUOTE frame stops after callback 5. -/
theorem C8_callback_exception_witness :
    wsListenStep c8wReg c8wRaises (mkDataFrame c8wEntry)
      = ([(5, 50)], some .callbackError) :=
  C8_callback_exception_propagates c8wReg c8wRaises c8wEntry (.jstr "QUOTE")
    .QUOTE c8wSub 5 [6] 50 [51] (.quotes [[(.SYMBOL, .jstr "BBB")]])
    rfl rfl rfl rfl rfl rfl rfl

/-- C9: subscribing CHART_EQUITY with process_first_data set while QUOTE is
already registered, when the first data frame alongside the confirmation
carries the QUOTE tag, delivers that frame to QUOTE's previously
registered consumer (identity 7 with its context 40) and not to the newly
registered CHART_EQUITY consumer (identity 9) — the dispatch is keyed by
the frame's own tag, as the source's own XXX comment concedes, not by the
subscribing call. -/
theorem C9_first_data_routed_by_frame_tag :
    (wsSubscribeModel c9reg neverRaises .CHART_EQUITY [0, 1, 2, 3, 4, 5, 6, 7]
      (some ["XYZ"]) true [9] (some [41]) c9frames).invoked = [(7, 40)] ∧
    (wsSubscribeModel c9reg neverRaises .CHART_EQUITY [0, 1, 2, 3, 4, 5, 6, 7]
      (some ["XYZ"]) true [9] (some [41]) c9frames).error = none ∧
    regGet (wsSubscribeModel c9reg neverRaises .CHART_EQUITY
        [0, 1, 2, 3, 4, 5, 6, 7] (some ["XYZ"]) true [9]
        (some [41]) c9frames).registry .CHART_EQUITY
      = some ⟨[0, 1, 2, 3, 4, 5, 6, 7], some ["XYZ"], true, [9], some [41]⟩ :=
  ⟨rfl, rfl, rfl⟩

/-- C10: decoding an ACCT_ACTIVITY frame depends only on the first element
of its content list — two frames with the same head decode identically
whatever their remaining entries — and no ACCT_ACTIVITY frame ever yields
more than one record. -/
theorem C10_acct_decodes_first_entry_only (c0 : JVal)
    (rest rest' : List JVal) (content : List JVal) :
    wsDistillData (mkAcctFrame (c0 :: rest))
      = wsDistillData (mkAcctFrame (c0 :: rest')) ∧
    distilledCount (wsDistillData (mkAcctFrame content)) ≤ 1 := by
  constructor
  · rfl
  · cases content with
    | nil => decide
    | cons c0 cs =>
      show distilledCount (distillAcct c0) ≤ 1
      rw [distilledCount_distillAcct]
      decide
